import Mathlib

/-!
Verification development for the NBA contract analytics application
(src/app_jadawilliams.py): a shallow embedding of its derived-metric
functions, natural-language query translator, table filters, database
seeding and image fetch, together with theorems settling the stated
properties of those functions.
-/

namespace NBAApp

/-! ## String helpers shared by the translator and the filters -/

/-- Lower-case a list of characters; models Python str.lower on ASCII text. -/
def lowerL (l : List Char) : List Char := l.map Char.toLower

/-- Substring test: models the Python expression pat in s on strings
(contiguous substring containment). -/
def hasSubstr (pat : List Char) : List Char → Bool
  | [] => pat.isPrefixOf []
  | c :: cs => pat.isPrefixOf (c :: cs) || hasSubstr pat cs

/-- First maximal run of decimal digits in the text, as a string; models
taking the first match of re.findall with the digit-run pattern. -/
def firstDigitRun : List Char → Option String
  | [] => none
  | c :: cs =>
    if c.isDigit then some (String.mk (c :: cs.takeWhile Char.isDigit))
    else firstDigitRun cs

/-! ## Value index (calculate_value_index, source lines 267-277) -/

/-- Fields of a performance-stat row that calculate_value_index reads.
Rationals model the Python float columns. -/
structure StatFields where
  points_per_game : ℚ
  per : ℚ
  win_shares : ℚ
  field_goal_pct : ℚ
  games_played : ℚ
deriving DecidableEq

/-- Round a rational to the nearest integer with ties going to the even
integer; models the rounding used by Python round. -/
def roundHalfEven (q : ℚ) : ℤ :=
  if q - ⌊q⌋ < 1 / 2 then ⌊q⌋
  else if 1 / 2 < q - ⌊q⌋ then ⌊q⌋ + 1
  else if Even ⌊q⌋ then ⌊q⌋ else ⌊q⌋ + 1

/-- Round to one decimal place; models the source expression round(value, 1). -/
def round1 (q : ℚ) : ℚ := (roundHalfEven (10 * q) : ℚ) / 10

/-- Embedding of calculate_value_index: per-term normalisation followed by
round(value, 1). -/
def calculate_value_index (row : StatFields) : ℚ :=
  let ppg_norm := min (row.points_per_game / 35) 1 * 30
  let per_norm := min (row.per / 35) 1 * 25
  let ws_norm := min (row.win_shares / 15) 1 * 20
  let efficiency := row.field_goal_pct / 60 * 15
  let availability := row.games_played / 82 * 10
  round1 (ppg_norm + per_norm + ws_norm + efficiency + availability)

/-- Value-index formula exactly as the specification writes it, with no
rounding step. -/
def valueIndexSpec (row : StatFields) : ℚ :=
  30 * min (row.points_per_game / 35) 1 + 25 * min (row.per / 35) 1 +
    20 * min (row.win_shares / 15) 1 + 15 * (row.field_goal_pct / 60) +
    10 * (row.games_played / 82)

/-! ## Contract efficiency (calculate_contract_efficiency, source lines 279-284) -/

/-- Performance-stat row as consumed by calculate_contract_efficiency: the
join key together with the stat fields the value index reads. -/
structure StatRow extends StatFields where
  player_id : ℤ
deriving DecidableEq

/-- Contract row as consumed by calculate_contract_efficiency: the join key
and the annual salary column it divides by. -/
structure ContractRow where
  player_id : ℤ
  annual_salary : ℚ
deriving DecidableEq

/-- Row of the merged frame produced by calculate_contract_efficiency.
The efficiency_rating column is an Option: none models the non-finite
float (inf or nan) that the unguarded division produces when the
denominator is zero. -/
structure MergedRow extends StatFields where
  player_id : ℤ
  annual_salary : ℚ
  value_index : ℚ
  efficiency_rating : Option ℚ
deriving DecidableEq

/-- Float division as the source performs it: a finite quotient when the
denominator is nonzero, and none (a non-finite float) when it is zero. -/
def floatDiv (a b : ℚ) : Option ℚ := if b = 0 then none else some (a / b)

/-- Embedding of calculate_contract_efficiency: inner-merge the stat and
contract rows on player_id (pandas pd.merge keeps, for each left row, every
matching right row), then add the value_index and efficiency_rating
columns. -/
def calculate_contract_efficiency (stats : List StatRow) (contracts : List ContractRow) :
    List MergedRow :=
  (stats.map fun s =>
    ((contracts.filter fun c => c.player_id == s.player_id).map fun c =>
      let vi := calculate_value_index s.toStatFields
      { toStatFields := s.toStatFields
        player_id := s.player_id
        annual_salary := c.annual_salary
        value_index := vi
        efficiency_rating := (floatDiv vi c.annual_salary).map (· * 10) })).flatten

/-! ## Natural-language query translator (translate_natural_to_sql, lines 842-906) -/

/-- Result of translate_natural_to_sql: one of the five fixed SQL templates,
carrying the digit string interpolated into it, or the default ten-row
player listing (the SQL text SELECT * FROM players LIMIT 10). -/
inductive SQLQuery where
  /-- Salary-threshold template: players joined with contracts, filtered by
  annual_salary greater than the amount, ordered by salary descending. -/
  | salaryOver (amount : String)
  /-- Top-scorers template: players joined with performance_stats ordered by
  points_per_game descending, with the given LIMIT. -/
  | topScorers (limit : String)
  /-- Fixed recurring-injury template: players joined with injuries where
  recurring = 1; no extracted parameter. -/
  | recurringInjuries
  /-- Fixed average-salary-by-position template. -/
  | avgSalaryByPosition
  /-- Young point-guard template: position PG and age below the amount. -/
  | youngPointGuards (age : String)
  /-- Default fallback: SELECT * FROM players LIMIT 10. -/
  | defaultPlayers
deriving DecidableEq

/-- Condition of the first translator branch, exactly as Python parses the
expression: over in q and million in q or dollar-sign in q, that is
(over and million) or dollar-sign. -/
def salaryCond (q : List Char) : Bool :=
  (hasSubstr "over".data q && hasSubstr "million".data q) || hasSubstr "$".data q

/-- Condition of the top-scorers branch: top in q and scorer in q. -/
def topCond (q : List Char) : Bool :=
  hasSubstr "top".data q && hasSubstr "scorer".data q

/-- Condition of the recurring-injuries branch. -/
def recCond (q : List Char) : Bool :=
  hasSubstr "recurring".data q && hasSubstr "injur".data q

/-- Condition of the average-salary-by-position branch. -/
def avgCond (q : List Char) : Bool :=
  hasSubstr "average salary".data q && hasSubstr "position".data q

/-- Condition of the young point-guard branch. -/
def pgCond (q : List Char) : Bool :=
  hasSubstr "point guard".data q && hasSubstr "under".data q

/-- Embedding of translate_natural_to_sql. The input is lower-cased, then
the five template conditions are tried in order; the salary and
point-guard branches return their template only when a digit run exists,
otherwise control falls through to the final default return, and the
top-scorers branch defaults its limit to 5. -/
def translate_natural_to_sql (query : String) : SQLQuery :=
  let q := lowerL query.data
  if salaryCond q then
    match firstDigitRun q with
    | some amount => SQLQuery.salaryOver amount
    | none => SQLQuery.defaultPlayers
  else if topCond q then
    SQLQuery.topScorers ((firstDigitRun q).getD "5")
  else if recCond q then
    SQLQuery.recurringInjuries
  else if avgCond q then
    SQLQuery.avgSalaryByPosition
  else if pgCond q then
    match firstDigitRun q with
    | some age => SQLQuery.youngPointGuards age
    | none => SQLQuery.defaultPlayers
  else SQLQuery.defaultPlayers

example : translate_natural_to_sql "Show me all players making over 40 million" =
    SQLQuery.salaryOver "40" := by decide
example : translate_natural_to_sql "top 5 scorer" = SQLQuery.topScorers "5" := by decide
example : translate_natural_to_sql "recurring injur" = SQLQuery.recurringInjuries := by decide
example : translate_natural_to_sql "hello" = SQLQuery.defaultPlayers := by decide
example : translate_natural_to_sql "$ top 5 scorer" = SQLQuery.salaryOver "5" := by decide
example : translate_natural_to_sql "$" = SQLQuery.defaultPlayers := by decide

/-! ## Player Database filter (show_player_database, source lines 467-474)

The name filter is the pandas call str.contains(search_name, case=False),
whose default is regex=True: the search string is interpreted as a regular
expression (searched anywhere in the name, case-insensitively), not as a
plain substring. The matcher below embeds the regular-expression fragment
the development needs: literal characters and the dot wildcard. -/

/-- Token of the embedded regular-expression fragment. -/
inductive RTok where
  /-- Literal character (compared case-insensitively under IGNORECASE). -/
  | lit (c : Char)
  /-- Dot wildcard: matches any single character. -/
  | dot
deriving DecidableEq

/-- Parse a pattern string into tokens: a dot becomes the wildcard, every
other character is a literal. -/
def parsePat (l : List Char) : List RTok :=
  l.map fun c => if c == '.' then RTok.dot else RTok.lit c

/-- Match the whole token list against a prefix of the text,
case-insensitively for literals. -/
def matchHere : List RTok → List Char → Bool
  | [], _ => true
  | _ :: _, [] => false
  | t :: ps, c :: cs =>
    (match t with
     | RTok.lit l => l.toLower == c.toLower
     | RTok.dot => true) && matchHere ps cs

/-- Search the pattern at every position of the text, as re.search does. -/
def reSearch (pat : List RTok) : List Char → Bool
  | [] => matchHere pat []
  | c :: cs => matchHere pat (c :: cs) || reSearch pat cs

/-- Name predicate of the filter: the search string, read as a regular
expression, found anywhere in the name ignoring case. -/
def nameMatches (search_name nm : String) : Bool :=
  reSearch (parsePat search_name.data) nm.data

/-- Columns of the joined player table that the filter reads. -/
structure PlayerRow where
  name : String
  position : String
  team : String
deriving DecidableEq

/-- Embedding of the filter block of show_player_database: the name filter
runs when the search string is non-empty (Python truthiness), then the
position and team dropdowns filter by exact equality unless set to All. -/
def show_player_database_filter (rows : List PlayerRow)
    (search_name filter_position filter_team : String) : List PlayerRow :=
  let r1 := if search_name ≠ "" then
      rows.filter (fun r => nameMatches search_name r.name) else rows
  let r2 := if filter_position ≠ "All" then
      r1.filter (fun r => r.position == filter_position) else r1
  if filter_team ≠ "All" then r2.filter (fun r => r.team == filter_team) else r2

/-- Keep-predicate written from the words of the claim: name contains the
search string as a case-insensitive substring (when non-empty), position
and team equal the dropdown choices exactly (when not All). -/
def specFilterKeeps (s p t : String) (r : PlayerRow) : Bool :=
  (s == "" || hasSubstr (lowerL s.data) (lowerL r.name.data)) &&
    (p == "All" || r.position == p) && (t == "All" || r.team == t)

/-- Regex metacharacters of Python re (brace characters written by code). -/
def isRegexMeta (c : Char) : Bool :=
  c == '.' || c == '^' || c == '$' || c == '*' || c == '+' || c == '?' ||
    c == '[' || c == ']' || c == '(' || c == ')' || c == '|' || c == '\\' ||
    c == Char.ofNat 123 || c == Char.ofNat 125

example : show_player_database_filter [⟨"Abc", "PG", "XX"⟩] "a.c" "All" "All" =
    [⟨"Abc", "PG", "XX"⟩] := by decide
example : specFilterKeeps "a.c" "All" "All" ⟨"Abc", "PG", "XX"⟩ = false := by decide

/-! ## Database model: schema, seeding and the contract insert -/

/-- Row of the players table. -/
structure PlayerRec where
  player_id : ℤ
  name : String
  position : String
  team : String
  age : ℤ
  height : String
  weight : ℤ
  years_in_league : ℤ
  draft_year : ℤ
  draft_position : ℤ
deriving DecidableEq

/-- Row of the contracts table (the AUTOINCREMENT contract_id is the list
position and is not stored in the row). -/
structure ContractRec where
  player_id : ℤ
  team : String
  start_date : String
  end_date : String
  total_value : ℚ
  annual_salary : ℚ
  contract_type : String
deriving DecidableEq

/-- Row of the performance_stats table. -/
structure StatRec where
  player_id : ℤ
  season : String
  games_played : ℤ
  minutes_per_game : ℚ
  points_per_game : ℚ
  rebounds_per_game : ℚ
  assists_per_game : ℚ
  field_goal_pct : ℚ
  three_point_pct : ℚ
  free_throw_pct : ℚ
  usage_rate : ℚ
  win_shares : ℚ
  per : ℚ
deriving DecidableEq

/-- Row of the injuries table. -/
structure InjuryRec where
  player_id : ℤ
  injury_type : String
  injury_date : String
  return_date : String
  games_missed : ℤ
  recurring : Bool
deriving DecidableEq

/-- Row of the teams table. -/
structure TeamRec where
  team_name : String
  city : String
  conference : String
  division : String
  current_payroll : ℚ
  salary_cap_space : ℚ
  luxury_tax_status : String
deriving DecidableEq

/-- State of the SQLite database: the five tables. -/
structure DB where
  players : List PlayerRec
  contracts : List ContractRec
  performance_stats : List StatRec
  injuries : List InjuryRec
  teams : List TeamRec
deriving DecidableEq

/-- Database with the five empty tables, as created on a fresh file. -/
def emptyDB : DB := ⟨[], [], [], [], []⟩

/-- Embedding of init_database: opening the database file creates the five
tables if absent (CREATE TABLE IF NOT EXISTS) and leaves an existing
database untouched. -/
def init_database (existing : Option DB) : DB := existing.getD emptyDB

/-- Sample players inserted by load_sample_data (source lines 155-171). -/
def samplePlayers : List PlayerRec :=
  [⟨2544, "LeBron James", "SF", "Los Angeles Lakers", 39, "6-9", 250, 21, 2003, 1⟩,
   ⟨201939, "Stephen Curry", "PG", "Golden State Warriors", 36, "6-2", 185, 15, 2009, 7⟩,
   ⟨203507, "Giannis Antetokounmpo", "PF", "Milwaukee Bucks", 29, "6-11", 243, 11, 2013, 15⟩,
   ⟨203999, "Nikola Jokic", "C", "Denver Nuggets", 29, "6-11", 284, 9, 2014, 41⟩,
   ⟨1629029, "Luka Doncic", "PG", "Dallas Mavericks", 25, "6-7", 230, 6, 2018, 3⟩,
   ⟨203954, "Joel Embiid", "C", "Philadelphia 76ers", 30, "7-0", 280, 9, 2014, 3⟩,
   ⟨201142, "Kevin Durant", "SF", "Phoenix Suns", 36, "6-10", 240, 17, 2007, 2⟩,
   ⟨203081, "Damian Lillard", "PG", "Milwaukee Bucks", 34, "6-2", 195, 12, 2012, 6⟩,
   ⟨202331, "Kawhi Leonard", "SF", "Los Angeles Clippers", 33, "6-7", 225, 13, 2011, 15⟩,
   ⟨1628369, "Jayson Tatum", "SF", "Boston Celtics", 26, "6-8", 210, 7, 2017, 3⟩,
   ⟨1629630, "Tyrese Haliburton", "PG", "Indiana Pacers", 24, "6-5", 185, 4, 2020, 12⟩,
   ⟨1630162, "Anthony Edwards", "SG", "Minnesota Timberwolves", 23, "6-4", 225, 4, 2020, 1⟩,
   ⟨203076, "Anthony Davis", "PF", "Los Angeles Lakers", 31, "6-10", 253, 12, 2012, 1⟩,
   ⟨1628983, "Shai Gilgeous-Alexander", "PG", "Oklahoma City Thunder", 26, "6-6", 195, 6, 2018, 11⟩,
   ⟨1629027, "Trae Young", "PG", "Atlanta Hawks", 26, "6-1", 164, 6, 2018, 5⟩]

/-- Sample performance stats inserted by load_sample_data (lines 198-214). -/
def sampleStats : List StatRec :=
  [⟨2544, "2023-24", 71, 35.3, 25.7, 7.3, 8.3, 54.0, 41.0, 75.0, 28.5, 7.2, 25.8⟩,
   ⟨201939, "2023-24", 74, 32.7, 26.4, 4.5, 5.1, 45.0, 40.8, 92.3, 29.2, 8.5, 27.4⟩,
   ⟨203507, "2023-24", 73, 35.2, 30.4, 11.5, 6.5, 61.1, 27.4, 65.7, 35.2, 11.8, 31.2⟩,
   ⟨203999, "2023-24", 79, 34.6, 26.4, 12.4, 9.0, 58.3, 35.9, 81.7, 28.3, 13.7, 29.8⟩,
   ⟨1629029, "2023-24", 70, 37.5, 33.9, 9.2, 9.8, 48.7, 38.2, 78.6, 36.8, 10.2, 28.7⟩,
   ⟨203954, "2023-24", 39, 34.7, 34.7, 11.0, 5.6, 52.9, 38.8, 88.3, 37.1, 9.8, 31.4⟩,
   ⟨201142, "2023-24", 75, 37.2, 27.1, 6.6, 5.0, 52.3, 41.3, 85.6, 30.5, 9.5, 27.8⟩,
   ⟨203081, "2023-24", 58, 35.3, 24.3, 4.2, 7.0, 42.2, 35.4, 92.0, 30.1, 6.8, 23.9⟩,
   ⟨202331, "2023-24", 68, 34.1, 23.7, 6.1, 3.6, 52.5, 41.7, 88.5, 29.8, 7.4, 25.3⟩,
   ⟨1628369, "2023-24", 74, 35.7, 26.9, 8.1, 4.9, 47.1, 37.6, 83.3, 29.6, 8.9, 25.0⟩,
   ⟨1629630, "2023-24", 69, 32.7, 20.1, 3.9, 10.9, 47.7, 36.4, 85.5, 24.8, 7.1, 22.6⟩,
   ⟨1630162, "2023-24", 79, 35.1, 25.9, 5.4, 5.1, 46.1, 35.7, 83.6, 30.2, 8.3, 23.4⟩,
   ⟨203076, "2023-24", 76, 35.5, 24.7, 12.6, 3.5, 55.6, 27.1, 81.6, 28.7, 9.4, 27.8⟩,
   ⟨1628983, "2023-24", 75, 33.9, 30.1, 5.5, 6.2, 53.5, 35.3, 87.4, 33.4, 10.8, 30.2⟩,
   ⟨1629027, "2023-24", 54, 36.2, 25.7, 2.8, 10.8, 43.0, 37.3, 86.0, 32.5, 5.7, 24.1⟩]

/-- Sample injuries inserted by load_sample_data (lines 224-229). -/
def sampleInjuries : List InjuryRec :=
  [⟨2544, "Ankle Sprain", "2024-01-15", "2024-02-01", 8, false⟩,
   ⟨203954, "Knee Surgery", "2024-02-01", "2024-04-15", 32, true⟩,
   ⟨202331, "Knee Inflammation", "2023-12-10", "2024-01-05", 12, true⟩,
   ⟨203081, "Calf Strain", "2024-01-20", "2024-02-28", 18, false⟩]

/-- Sample teams inserted by load_sample_data (lines 237-243). -/
def sampleTeams : List TeamRec :=
  [⟨"Los Angeles Lakers", "Los Angeles", "Western", "Pacific", 178.5, -38.5, "Over Cap"⟩,
   ⟨"Golden State Warriors", "San Francisco", "Western", "Pacific", 192.3, -52.3, "Luxury Tax"⟩,
   ⟨"Milwaukee Bucks", "Milwaukee", "Eastern", "Central", 168.7, -28.7, "Over Cap"⟩,
   ⟨"Denver Nuggets", "Denver", "Western", "Northwest", 162.4, -22.4, "Over Cap"⟩,
   ⟨"Dallas Mavericks", "Dallas", "Western", "Southwest", 155.8, -15.8, "Under Cap"⟩]

/-- Sampled contract salary: np.random.uniform(a, b) is a + u * (b - a)
with u the unit-interval random draw; the bracket depends on the age
exactly as in the source (lines 179-184). -/
def salaryDraw (age : ℤ) (u : ℚ) : ℚ :=
  if age < 26 then 25 + u * 15
  else if age < 30 then 35 + u * 17
  else 30 + u * 18

/-- Embedding of load_sample_data: return immediately when the players
table already has rows; otherwise insert the sample players (INSERT OR
IGNORE skips a row whose player_id is already present), one generated
contract per sample player (salary drawn by age bracket, dates fixed,
total_value = salary * 4, type Max Contract), and the sample stats,
injuries and teams. The parameter u supplies the random draws. -/
def load_sample_data (u : ℕ → ℚ) (db : DB) : DB :=
  if 0 < db.players.length then db
  else
    { players :=
        samplePlayers.foldl
          (fun acc p => if acc.any fun q => q.player_id == p.player_id then acc
            else acc ++ [p]) db.players
      contracts := db.contracts ++
        samplePlayers.enum.map fun ip =>
          let salary := salaryDraw ip.2.age (u ip.1)
          ⟨ip.2.player_id, ip.2.team, "2023-07-01", "2027-06-30", salary * 4, salary,
            "Max Contract"⟩
      performance_stats := db.performance_stats ++ sampleStats
      injuries := db.injuries ++ sampleInjuries
      teams := db.teams ++ sampleTeams }

/-- Embedding of the Save Contract action of show_contract_manager (lines
692-705): total_value is annual_salary times the contract length, and the
row is inserted into the contracts table by a plain INSERT. -/
def show_contract_manager_save (db : DB) (player_id : ℤ) (team : String)
    (start_date end_date : String) (years : ℕ) (annual_salary : ℚ)
    (contract_type : String) : DB :=
  let total_value := annual_salary * years
  { db with
      contracts := db.contracts ++
        [⟨player_id, team, start_date, end_date, total_value, annual_salary,
          contract_type⟩] }

/-! ## Player image fetch (get_player_image, source lines 256-265) -/

/-- Outcome of the HTTP GET for the headshot image: a response with a
status code and body, or a raised timeout or connection error. -/
inductive HttpOutcome (α : Type) where
  /-- The request returned a response. -/
  | ok (status : ℕ) (content : α)
  /-- The request raised a timeout (the call passes timeout=3). -/
  | timeout
  /-- The request raised some other connection error. -/
  | connError
deriving DecidableEq

/-- Embedding of get_player_image: on a status-200 response the body is
decoded (Image.open, which itself may raise, modelled by the Except-valued
decoder); every raised exception is swallowed by the bare except and the
function returns None, as it does on any non-200 status. -/
def get_player_image {α β : Type} (decode : α → Except String β)
    (resp : HttpOutcome α) : Option β :=
  match resp with
  | HttpOutcome.ok status content =>
    if status = 200 then
      match decode content with
      | Except.ok img => some img
      | Except.error _ => none
    else none
  | HttpOutcome.timeout => none
  | HttpOutcome.connError => none

/-! ## Rounding lemmas -/

theorem roundHalfEven_nonneg {q : ℚ} (h : 0 ≤ q) : 0 ≤ roundHalfEven q := by
  have hf : 0 ≤ ⌊q⌋ := Int.floor_nonneg.mpr h
  unfold roundHalfEven
  split_ifs <;> omega

theorem roundHalfEven_le {q : ℚ} {n : ℤ} (h : q ≤ n) : roundHalfEven q ≤ n := by
  have hf : ⌊q⌋ ≤ n := by
    have h2 := Int.floor_le_floor h
    simpa using h2
  have hfl : (⌊q⌋ : ℚ) ≤ q := Int.floor_le q
  unfold roundHalfEven
  split_ifs with h1 h2 h3
  · exact hf
  · have hlt : ((⌊q⌋ : ℤ) : ℚ) < (n : ℚ) := by linarith
    have : ⌊q⌋ < n := by exact_mod_cast hlt
    omega
  · exact hf
  · have h1' : (1 : ℚ) / 2 ≤ q - ⌊q⌋ := le_of_not_lt h1
    have hlt : ((⌊q⌋ : ℤ) : ℚ) < (n : ℚ) := by linarith
    have : ⌊q⌋ < n := by exact_mod_cast hlt
    omega

theorem round1_nonneg {q : ℚ} (h : 0 ≤ q) : 0 ≤ round1 q := by
  have h1 : 0 ≤ roundHalfEven (10 * q) := roundHalfEven_nonneg (by linarith)
  have h2 : (0 : ℚ) ≤ (roundHalfEven (10 * q) : ℚ) := by exact_mod_cast h1
  unfold round1
  positivity

theorem round1_le_100 {q : ℚ} (h : q ≤ 100) : round1 q ≤ 100 := by
  have h1 : roundHalfEven (10 * q) ≤ (1000 : ℤ) := by
    apply roundHalfEven_le
    push_cast
    linarith
  have h2 : ((roundHalfEven (10 * q) : ℤ) : ℚ) ≤ 1000 := by exact_mod_cast h1
  unfold round1
  linarith

/-! ## Claims about the value index -/

/-- C1 counterexample: calculate_value_index does not return the weighted
formula itself; on the row with points_per_game 1 and the other fields 0
it returns 0.9, the formula rounded to one decimal, while the unrounded
formula of the claim gives 6/7. -/
theorem calculate_value_index_round_cex :
    calculate_value_index ⟨1, 0, 0, 0, 0⟩ = 9 / 10 ∧
      valueIndexSpec ⟨1, 0, 0, 0, 0⟩ = 6 / 7 ∧
      calculate_value_index ⟨1, 0, 0, 0, 0⟩ ≠ valueIndexSpec ⟨1, 0, 0, 0, 0⟩ := by
  refine ⟨?_, ?_, ?_⟩ <;>
    norm_num [calculate_value_index, valueIndexSpec, round1, roundHalfEven]

/-- C1 (amended): for every stat row, calculate_value_index returns the
weighted formula of the claim rounded to the nearest tenth (ties to even,
as Python round does); in particular the saturation row yields exactly 100
and the all-zero row yields 0. -/
theorem calculate_value_index_eq_round_spec :
    (∀ row : StatFields, calculate_value_index row = round1 (valueIndexSpec row)) ∧
      calculate_value_index ⟨35, 35, 15, 60, 82⟩ = 100 ∧
      calculate_value_index ⟨0, 0, 0, 0, 0⟩ = 0 := by
  refine ⟨fun row => ?_, ?_, ?_⟩
  · simp only [calculate_value_index, valueIndexSpec]
    congr 1
    ring
  · norm_num [calculate_value_index, round1, roundHalfEven]
  · norm_num [calculate_value_index, round1, roundHalfEven]

/-- C5 counterexample: the field-goal term is not clamped to its weight, so
a non-negative row can score above 100: with field_goal_pct 600 and the
other fields 0 the value index is 150. -/
theorem value_index_above_100_cex :
    calculate_value_index ⟨0, 0, 0, 600, 0⟩ = 150 ∧
      ¬ calculate_value_index ⟨0, 0, 0, 600, 0⟩ ≤ 100 := by
  constructor <;> norm_num [calculate_value_index, round1, roundHalfEven]

/-- C5 (amended): for non-negative fields the value index is non-negative,
and it is at most 100 when additionally field_goal_pct is at most 60 and
games_played at most 82; only the points, PER and win-share terms are
clamped to their weights, the field-goal and games-played terms are not. -/
theorem value_index_bounds_amended :
    ∀ row : StatFields, 0 ≤ row.points_per_game → 0 ≤ row.per → 0 ≤ row.win_shares →
      0 ≤ row.field_goal_pct → 0 ≤ row.games_played →
      0 ≤ calculate_value_index row ∧
        (row.field_goal_pct ≤ 60 → row.games_played ≤ 82 →
          calculate_value_index row ≤ 100) := by
  intro row h1 h2 h3 h4 h5
  have m1a : (0 : ℚ) ≤ min (row.points_per_game / 35) 1 := le_min (by positivity) (by norm_num)
  have m2a : (0 : ℚ) ≤ min (row.per / 35) 1 := le_min (by positivity) (by norm_num)
  have m3a : (0 : ℚ) ≤ min (row.win_shares / 15) 1 := le_min (by positivity) (by norm_num)
  have m1b : min (row.points_per_game / 35) 1 ≤ 1 := min_le_right _ _
  have m2b : min (row.per / 35) 1 ≤ 1 := min_le_right _ _
  have m3b : min (row.win_shares / 15) 1 ≤ 1 := min_le_right _ _
  constructor
  · simp only [calculate_value_index]
    apply round1_nonneg
    have t4 : (0 : ℚ) ≤ row.field_goal_pct / 60 * 15 := by positivity
    have t5 : (0 : ℚ) ≤ row.games_played / 82 * 10 := by positivity
    nlinarith
  · intro hfg hgp
    simp only [calculate_value_index]
    apply round1_le_100
    have t4 : row.field_goal_pct / 60 * 15 ≤ 15 := by
      have : row.field_goal_pct / 60 ≤ 1 := by
        rw [div_le_one (by norm_num)]
        linarith
      linarith
    have t5 : row.games_played / 82 * 10 ≤ 10 := by
      have : row.games_played / 82 ≤ 1 := by
        rw [div_le_one (by norm_num)]
        linarith
      linarith
    nlinarith

/-- C5 witness: the amended bounds evaluated on a concrete in-range row. -/
theorem value_index_bounds_amended_witness :
    0 ≤ calculate_value_index ⟨20, 20, 10, 50, 70⟩ ∧
      calculate_value_index ⟨20, 20, 10, 50, 70⟩ ≤ 100 := by
  have h := value_index_bounds_amended ⟨20, 20, 10, 50, 70⟩ (by norm_num) (by norm_num)
    (by norm_num) (by norm_num) (by norm_num)
  exact ⟨h.1, h.2 (by norm_num) (by norm_num)⟩

/-! ## Claims about the contract save and the image fetch -/

/-- C8: saving a contract appends exactly one row, built from the form
fields with total_value equal to the annual salary times the length in
years, to the contracts table; every pre-existing contract row and the
other four tables are unchanged. -/
theorem save_contract_frame :
    ∀ (db : DB) (pid : ℤ) (team sd ed : String) (years : ℕ) (sal : ℚ) (ctype : String),
      (show_contract_manager_save db pid team sd ed years sal ctype).players = db.players ∧
        (show_contract_manager_save db pid team sd ed years sal ctype).performance_stats =
          db.performance_stats ∧
        (show_contract_manager_save db pid team sd ed years sal ctype).injuries =
          db.injuries ∧
        (show_contract_manager_save db pid team sd ed years sal ctype).teams = db.teams ∧
        (show_contract_manager_save db pid team sd ed years sal ctype).contracts =
          db.contracts ++ [⟨pid, team, sd, ed, sal * years, sal, ctype⟩] ∧
        (show_contract_manager_save db pid team sd ed years sal ctype).contracts.take
          db.contracts.length = db.contracts := by
  intro db pid team sd ed years sal ctype
  refine ⟨rfl, rfl, rfl, rfl, rfl, ?_⟩
  simp [show_contract_manager_save, List.take_left]

/-- C9: get_player_image returns the decoded image exactly on a status-200
response whose body decodes, and None on a non-200 status, a timeout, a
connection error, or a decoding exception; the Option return type records
that no exception propagates. -/
theorem get_player_image_cases :
    ∀ {α β : Type} (decode : α → Except String β) (resp : HttpOutcome α),
      (∀ content img, resp = HttpOutcome.ok 200 content → decode content = Except.ok img →
        get_player_image decode resp = some img) ∧
        (∀ status content, resp = HttpOutcome.ok status content → status ≠ 200 →
          get_player_image decode resp = none) ∧
        (∀ content e, resp = HttpOutcome.ok 200 content → decode content = Except.error e →
          get_player_image decode resp = none) ∧
        (resp = HttpOutcome.timeout → get_player_image decode resp = none) ∧
        (resp = HttpOutcome.connError → get_player_image decode resp = none) := by
  intro α β decode resp
  refine ⟨?_, ?_, ?_, ?_, ?_⟩
  · intro c img hr hd
    subst hr
    simp [get_player_image, hd]
  · intro s c hr hs
    subst hr
    simp [get_player_image, hs]
  · intro c e hr hd
    subst hr
    simp [get_player_image, hd]
  · intro hr
    subst hr
    rfl
  · intro hr
    subst hr
    rfl

/-- C9 witness: the four outcomes evaluated with a concrete decoder. -/
theorem get_player_image_cases_witness :
    get_player_image (fun n : ℕ => if n = 0 then Except.error "bad" else Except.ok n)
        (HttpOutcome.ok 200 7) = some 7 ∧
      get_player_image (fun n : ℕ => if n = 0 then Except.error "bad" else Except.ok n)
        (HttpOutcome.ok 404 7) = none ∧
      get_player_image (fun n : ℕ => if n = 0 then Except.error "bad" else Except.ok n)
        (HttpOutcome.ok 200 0) = none ∧
      get_player_image (fun n : ℕ => if n = 0 then Except.error "bad" else Except.ok n)
        (HttpOutcome.timeout : HttpOutcome ℕ) = none := by
  refine ⟨?_, ?_, ?_, ?_⟩
  · exact (get_player_image_cases _ _).1 7 7 rfl (by norm_num)
  · exact (get_player_image_cases _ _).2.1 404 7 rfl (by norm_num)
  · exact (get_player_image_cases _ _).2.2.1 0 "bad" rfl (by norm_num)
  · exact (get_player_image_cases _ _).2.2.2.1 rfl

/-! ## Claims about contract efficiency -/

/-- C3: every row of the merged frame built by calculate_contract_efficiency
carries the value index of its own stat fields, and its efficiency rating
is that value index divided by the row's annual salary times 10 (a finite
value exactly when the salary is nonzero). -/
theorem contract_efficiency_formula :
    ∀ (stats : List StatRow) (contracts : List ContractRow) (row : MergedRow),
      row ∈ calculate_contract_efficiency stats contracts →
      row.value_index = calculate_value_index row.toStatFields ∧
        row.efficiency_rating =
          if row.annual_salary = 0 then none
          else some (row.value_index / row.annual_salary * 10) := by
  intro stats contracts row hrow
  simp only [calculate_contract_efficiency, List.mem_flatten, List.mem_map,
    List.mem_filter] at hrow
  obtain ⟨l, ⟨s, hs, rfl⟩, hmem⟩ := hrow
  obtain ⟨c, hc, rfl⟩ := List.mem_map.mp hmem
  refine ⟨rfl, ?_⟩
  simp only [floatDiv]
  split_ifs with h <;> simp [h]

/-- C3 witness: the formula evaluated on a one-row merge with salary 40 and
saturation stats, whose value index is 100 and efficiency rating 25. -/
theorem contract_efficiency_formula_witness :
    (⟨⟨35, 35, 15, 60, 82⟩, 1, 40, 100, some 25⟩ : MergedRow).value_index =
        calculate_value_index
          (⟨⟨35, 35, 15, 60, 82⟩, 1, 40, 100, some 25⟩ : MergedRow).toStatFields ∧
      (⟨⟨35, 35, 15, 60, 82⟩, 1, 40, 100, some 25⟩ : MergedRow).efficiency_rating =
        if (⟨⟨35, 35, 15, 60, 82⟩, 1, 40, 100, some 25⟩ : MergedRow).annual_salary = 0
        then none
        else some ((⟨⟨35, 35, 15, 60, 82⟩, 1, 40, 100, some 25⟩ : MergedRow).value_index /
          (⟨⟨35, 35, 15, 60, 82⟩, 1, 40, 100, some 25⟩ : MergedRow).annual_salary * 10) := by
  apply contract_efficiency_formula [⟨⟨35, 35, 15, 60, 82⟩, 1⟩] [⟨1, 40⟩]
  have hvi : calculate_value_index ⟨35, 35, 15, 60, 82⟩ = 100 := by
    norm_num [calculate_value_index, round1, roundHalfEven]
  have heff : (floatDiv (100 : ℚ) 40).map (· * 10) = some 25 := by
    norm_num [floatDiv]
  simp [calculate_contract_efficiency, hvi, heff]

/-- C4: on a merged row whose annual salary is 0 and whose value index is
positive, the division the source performs without any zero-salary guard
has a zero denominator, so the efficiency rating is the non-finite float,
modelled as none. -/
theorem contract_efficiency_zero_salary :
    ∀ (stats : List StatRow) (contracts : List ContractRow) (row : MergedRow),
      row ∈ calculate_contract_efficiency stats contracts →
      row.annual_salary = 0 → 0 < row.value_index →
      row.efficiency_rating = none := by
  intro stats contracts row hrow hsal _
  simp only [calculate_contract_efficiency, List.mem_flatten, List.mem_map,
    List.mem_filter] at hrow
  obtain ⟨l, ⟨s, hs, rfl⟩, hmem⟩ := hrow
  obtain ⟨c, hc, rfl⟩ := List.mem_map.mp hmem
  simp only at hsal
  simp [floatDiv, hsal]

/-- C4 witness: a zero-salary contract merged with saturation stats (value
index 100) produces the non-finite efficiency rating. -/
theorem contract_efficiency_zero_salary_witness :
    (⟨⟨35, 35, 15, 60, 82⟩, 2, 0, 100, none⟩ : MergedRow).efficiency_rating = none := by
  apply contract_efficiency_zero_salary [⟨⟨35, 35, 15, 60, 82⟩, 2⟩] [⟨2, 0⟩]
  · have hvi : calculate_value_index ⟨35, 35, 15, 60, 82⟩ = 100 := by
      norm_num [calculate_value_index, round1, roundHalfEven]
    simp [calculate_contract_efficiency, hvi, floatDiv]
  · rfl
  · norm_num

/-! ## Claims about the translator -/

/-- C10: the salary-threshold branch fires exactly when the lower-cased
input satisfies (over and million) or contains a dollar sign; when it
fires the result is the threshold template with the first digit run, or
the default player listing when the text has no digit; when it does not
fire the result is never the threshold template. -/
theorem translate_salary_branch :
    ∀ s : String,
      (salaryCond (lowerL s.data) = true →
        translate_natural_to_sql s =
          match firstDigitRun (lowerL s.data) with
          | some d => SQLQuery.salaryOver d
          | none => SQLQuery.defaultPlayers) ∧
        (salaryCond (lowerL s.data) = false →
          ∀ d, translate_natural_to_sql s ≠ SQLQuery.salaryOver d) := by
  intro s
  constructor
  · intro h
    simp [translate_natural_to_sql, h]
  · intro h d
    simp only [translate_natural_to_sql, h, Bool.false_eq_true, if_false]
    split_ifs
    · simp
    · simp
    · simp
    · cases hfd : firstDigitRun (lowerL s.data) <;> simp
    · simp

/-- C10 witness: a digit-less dollar input falls through to the default
listing, and an input outside the branch is never the threshold query. -/
theorem translate_salary_branch_witness :
    translate_natural_to_sql "$" = SQLQuery.defaultPlayers ∧
      translate_natural_to_sql "go" ≠ SQLQuery.salaryOver "1" := by
  constructor
  · exact ((translate_salary_branch "$").1 (by decide)).trans (by decide)
  · exact (translate_salary_branch "go").2 (by decide) "1"

/-- C2 counterexample: the input containing top 5 scorer together with a
dollar sign routes to the salary branch, which fires first, so it does not
map to the top-scorers query with LIMIT 5 as the claim states for every
input containing top 5 scorer. -/
theorem translate_top5_cex :
    translate_natural_to_sql "$ top 5 scorer" = SQLQuery.salaryOver "5" ∧
      translate_natural_to_sql "$ top 5 scorer" ≠ SQLQuery.topScorers "5" := by
  decide

/-- C2 (amended): the over-40-million sentence maps to the threshold
template with amount 40; an input containing top and scorer that the
salary branch does not capture maps to the top-scorers template whose
LIMIT is its first digit run, 5 by default - in particular the input
top 5 scorer itself yields LIMIT 5; the input recurring injur maps to the
fixed recurring-injury template; and an input matching none of the five
templates maps to the default ten-row player listing. -/
theorem translate_templates_amended :
    translate_natural_to_sql "Show me all players making over 40 million" =
        SQLQuery.salaryOver "40" ∧
      (∀ s : String, salaryCond (lowerL s.data) = false → topCond (lowerL s.data) = true →
        translate_natural_to_sql s =
          SQLQuery.topScorers ((firstDigitRun (lowerL s.data)).getD "5")) ∧
      translate_natural_to_sql "top 5 scorer" = SQLQuery.topScorers "5" ∧
      translate_natural_to_sql "recurring injur" = SQLQuery.recurringInjuries ∧
      (∀ s : String, salaryCond (lowerL s.data) = false → topCond (lowerL s.data) = false →
        recCond (lowerL s.data) = false → avgCond (lowerL s.data) = false →
        pgCond (lowerL s.data) = false →
        translate_natural_to_sql s = SQLQuery.defaultPlayers) := by
  refine ⟨by decide, ?_, by decide, by decide, ?_⟩
  · intro s h1 h2
    simp [translate_natural_to_sql, h1, h2]
  · intro s h1 h2 h3 h4 h5
    simp [translate_natural_to_sql, h1, h2, h3, h4, h5]

/-- C2 witness: the amended universal cases evaluated on concrete inputs, a
digit-less scorer question and an unmatched greeting. -/
theorem translate_templates_amended_witness :
    translate_natural_to_sql "best scorer on top" = SQLQuery.topScorers "5" ∧
      translate_natural_to_sql "hello there" = SQLQuery.defaultPlayers := by
  constructor
  · exact (translate_templates_amended.2.1 "best scorer on top" (by decide)
      (by decide)).trans (by decide)
  · exact translate_templates_amended.2.2.2.2 "hello there" (by decide) (by decide)
      (by decide) (by decide) (by decide)

/-! ## Claims about the Player Database filter -/

theorem matchHere_map_lit (p : List Char) :
    ∀ s, matchHere (p.map RTok.lit) s = (lowerL p).isPrefixOf (lowerL s) := by
  induction p with
  | nil => intro s; simp [matchHere, lowerL, List.isPrefixOf]
  | cons a as ih =>
    intro s
    cases s with
    | nil => simp [matchHere, lowerL, List.isPrefixOf]
    | cons c cs => simp [matchHere, lowerL, List.isPrefixOf, ih cs]

theorem reSearch_map_lit (p : List Char) :
    ∀ s, reSearch (p.map RTok.lit) s = hasSubstr (lowerL p) (lowerL s) := by
  intro s
  induction s with
  | nil => simp [reSearch, hasSubstr, matchHere_map_lit, lowerL]
  | cons c cs ih => simp [reSearch, hasSubstr, matchHere_map_lit, lowerL, ih]

theorem parsePat_eq_map_lit {l : List Char} (h : ∀ c ∈ l, isRegexMeta c = false) :
    parsePat l = l.map RTok.lit := by
  unfold parsePat
  apply List.map_congr_left
  intro c hc
  have hm := h c hc
  have hne : ¬ c = '.' := by
    intro hcc
    subst hcc
    simp [isRegexMeta] at hm
  simp [hne]

theorem string_if_filter {α : Type} (rows : List α) (s c : String) (f : α → Bool) :
    (if s ≠ c then rows.filter f else rows) = rows.filter fun a => s == c || f a := by
  by_cases h : s = c
  · subst h
    simp
  · have hb : (s == c) = false := by simp [h]
    simp [h, hb]

/-- C6 counterexample: the name filter feeds the search string to a
regular-expression search, not a substring test; the search string a.c
keeps the row named Abc although a.c is not a case-insensitive substring
of that name. -/
theorem player_filter_regex_cex :
    show_player_database_filter [⟨"Abc", "PG", "XX"⟩] "a.c" "All" "All" =
        [⟨"Abc", "PG", "XX"⟩] ∧
      specFilterKeeps "a.c" "All" "All" ⟨"Abc", "PG", "XX"⟩ = false := by
  decide

/-- C6 (amended): when the search string contains no regular-expression
metacharacter, the Player Database filter keeps exactly the rows whose
name contains it as a case-insensitive substring (when non-empty), whose
position equals the position choice exactly (when not All) and whose team
equals the team choice exactly (when not All); a metacharacter search
string is interpreted as a regular expression instead. -/
theorem player_filter_spec_amended :
    ∀ (rows : List PlayerRow) (s p t : String),
      (∀ c ∈ s.data, isRegexMeta c = false) →
      show_player_database_filter rows s p t = rows.filter (specFilterKeeps s p t) := by
  intro rows s p t h
  have hname : ∀ r : PlayerRow, nameMatches s r.name =
      hasSubstr (lowerL s.data) (lowerL r.name.data) := by
    intro r
    unfold nameMatches
    rw [parsePat_eq_map_lit h, reSearch_map_lit]
  simp only [show_player_database_filter, string_if_filter]
  simp only [List.filter_filter]
  apply List.filter_congr
  intro r hr
  simp only [specFilterKeeps, ← hname r]
  cases (s == "" || nameMatches s r.name) <;>
    cases (p == "All" || r.position == p) <;>
    cases (t == "All" || r.team == t) <;> rfl

/-- C6 witness: the amended filter characterisation on a concrete two-row
table with a metacharacter-free search string. -/
theorem player_filter_spec_amended_witness :
    show_player_database_filter
        [⟨"Stephen Curry", "PG", "Golden State Warriors"⟩,
         ⟨"LeBron James", "SF", "Los Angeles Lakers"⟩] "curry" "All" "All" =
      List.filter (specFilterKeeps "curry" "All" "All")
        [⟨"Stephen Curry", "PG", "Golden State Warriors"⟩,
         ⟨"LeBron James", "SF", "Los Angeles Lakers"⟩] :=
  player_filter_spec_amended
    [⟨"Stephen Curry", "PG", "Golden State Warriors"⟩,
     ⟨"LeBron James", "SF", "Los Angeles Lakers"⟩] "curry" "All" "All" (by decide)

/-! ## Claim about seeding -/

/-- C7: load_sample_data is a no-op on a database whose players table is
non-empty, and init_database followed by load_sample_data run twice gives
the state of a single run, whatever random draws the two runs use. -/
theorem load_sample_data_idempotent :
    (∀ (u : ℕ → ℚ) (db : DB), db.players ≠ [] → load_sample_data u db = db) ∧
      ∀ u1 u2 : ℕ → ℚ,
        load_sample_data u2
            (init_database (some (load_sample_data u1 (init_database none)))) =
          load_sample_data u1 (init_database none) := by
  have hskip : ∀ (u : ℕ → ℚ) (db : DB), db.players ≠ [] → load_sample_data u db = db := by
    intro u db h
    unfold load_sample_data
    rw [if_pos]
    exact List.length_pos.mpr h
  refine ⟨hskip, fun u1 u2 => ?_⟩
  have hplayers : (load_sample_data u1 (init_database none)).players =
      samplePlayers.foldl
        (fun acc p => if acc.any fun q => q.player_id == p.player_id then acc
          else acc ++ [p]) [] := rfl
  have hne : (load_sample_data u1 (init_database none)).players ≠ [] := by
    rw [hplayers]
    decide
  exact hskip u2 _ hne

/-- C7 witness: loading sample data over a database that already holds one
player row changes nothing. -/
theorem load_sample_data_idempotent_witness :
    load_sample_data (fun _ => 0)
        ⟨[⟨1, "A", "PG", "T", 30, "6-0", 200, 5, 2010, 1⟩], [], [], [], []⟩ =
      ⟨[⟨1, "A", "PG", "T", 30, "6-0", 200, 5, 2010, 1⟩], [], [], [], []⟩ :=
  load_sample_data_idempotent.1 (fun _ => 0) _ (by decide)

end NBAApp
